import Mathlib

/-!
Shallow embedding of the kontext CLI core: directory-to-profile resolution
(`DirectoryScanner`), the dotfile symlink engine (`ConfigFileManager`), the
profile store (`ProfileManager`), activation/deactivation script generation
(`EnvironmentManager`), hook execution (`HookManager`) and the `delete`
CLI command, together with theorems checking the specified properties.

Modelling conventions:
* Paths are the strings the TypeScript code manipulates.  The OS-level
  resolution of `..` / `.` segments that happens inside `fs` system calls
  (not in the TypeScript string handling) is modelled by `normalizePath`.
* Directories for the upward marker scan are lists of path components in
  reverse order (innermost component first); `[]` is the filesystem root
  and `List.tail` is `path.dirname`.
* `fs.promises.access`-style existence checks follow one level of symlink
  indirection; in every scenario below the targets of symlinks are regular
  files, so deeper chains never arise.
-/

deriving instance DecidableEq for Except

namespace Kontext

/-- The string separator used by all POSIX path manipulation below. -/
def slash : String := "/"

/-- Prefix test on the underlying character lists (the core `String`
functions are not kernel-reducible, so all string manipulation below is
done on `List Char`). -/
def strPrefixOf (p s : String) : Bool :=
  p.data.isPrefixOf s.data

/-- `String.drop` via the character list. -/
def strDrop (s : String) (n : Nat) : String :=
  String.mk (s.data.drop n)

/-- Drop `n` characters from the right end. -/
def strDropRight (s : String) (n : Nat) : String :=
  String.mk (s.data.take (s.data.length - n))

/-- Split a character list at every occurrence of `sep`. -/
def splitOnChar (sep : Char) : List Char → List (List Char)
  | [] => [[]]
  | c :: cs =>
    match splitOnChar sep cs with
    | [] => [[c]]
    | h :: t => if c = sep then [] :: h :: t else (c :: h) :: t

/-- Fuel-driven global replacement; the fuel is the input length, which is
enough because each step consumes at least one character of the input when
the pattern is nonempty. -/
def replaceAllAux (pat rep : List Char) : Nat → List Char → List Char
  | _, [] => []
  | 0, l => l
  | fuel + 1, c :: cs =>
    if pat.isPrefixOf (c :: cs) then
      rep ++ replaceAllAux pat rep fuel ((c :: cs).drop pat.length)
    else c :: replaceAllAux pat rep fuel cs

/-- JavaScript `s.replace(/pat/g, rep)` for a literal nonempty pattern. -/
def jsReplaceAll (s pat rep : String) : String :=
  if pat = "" then s
  else String.mk (replaceAllAux pat.data rep.data s.data.length s.data)

/-- One step of `..` / `.` / empty-segment elimination, as the OS resolves
a path: `..` pops one component (staying at the root when empty). -/
def normStep (acc : List String) (c : String) : List String :=
  if c = "" ∨ c = "." then acc
  else if c = ".." then acc.dropLast
  else acc ++ [c]

/-- OS-level resolution of an absolute path string: splits on `/` and
eliminates `..`, `.` and empty segments. -/
def normalizePath (p : String) : String :=
  slash ++ String.mk (List.intercalate ['/']
    ((((splitOnChar '/' p.data).map String.mk).foldl normStep []).map String.data))

/-- `path.isAbsolute` (POSIX). -/
def isAbsolute (p : String) : Bool :=
  strPrefixOf slash p

/-- `path.join(a, b)` for the absolute `a` used in this code base: joins
and normalizes. -/
def pathJoin (a b : String) : String :=
  normalizePath (a ++ slash ++ b)

/-- `path.resolve(base, p)`: absolute `p` wins, otherwise `p` is resolved
against `base`, falling back to the process working directory `cwd` when
`base` is itself relative. -/
def pathResolve2 (cwd base p : String) : String :=
  if isAbsolute p then normalizePath p
  else if isAbsolute base then normalizePath (base ++ slash ++ p)
  else normalizePath (cwd ++ slash ++ base ++ slash ++ p)

/-- `path.resolve(p)`: resolves against the process working directory. -/
def pathResolve1 (cwd p : String) : String :=
  if isAbsolute p then normalizePath p
  else normalizePath (cwd ++ slash ++ p)

/-- The `~/` prefix recognised by the tilde-expansion branches. -/
def tildeSlash : String := "~/"

namespace DirectoryScanner

/-- `DirectoryScanner.findProfileFile`: starting at `startDir`, walk towards
the filesystem root; the `while (searchDir !== root)` loop checks every
non-root directory and the root is checked after the loop.  `hasMarker d`
stands for `fileExists(path.join(d, '.kontext-profile'))`; the returned
directory stands for the returned marker path (the marker file is always
directly inside it). -/
def findProfileFile (hasMarker : List String → Bool) : List String → Option (List String)
  | [] => if hasMarker [] then some [] else none
  | c :: rest =>
    if hasMarker (c :: rest) then some (c :: rest)
    else findProfileFile hasMarker rest

/-- JavaScript `String.prototype.trim`: drop whitespace from both ends. -/
def jsTrim (s : String) : String :=
  String.mk (((s.data.dropWhile Char.isWhitespace).reverse.dropWhile
    Char.isWhitespace).reverse)

/-- Character class of the profile-name validation regex `[a-zA-Z0-9_-]`. -/
def isNameChar (c : Char) : Bool :=
  c.isAlphanum || c = '_' || c = '-'

/-- `DirectoryScanner.readProfileName`, applied to the marker file content:
trims, rejects empty content, and validates against `/^[a-zA-Z0-9_-]+$/`. -/
def readProfileName (content : String) : Except String String :=
  let profileName := jsTrim content
  if profileName = "" then Except.error ("profile file is empty")
  else if !(profileName.data.all isNameChar) then
    Except.error ("invalid profile name")
  else Except.ok profileName

/-- `DirectoryScanner.getActiveProfile`: compose `findProfileFile` and
`readProfileName`, degrading any read failure to `none`. -/
def getActiveProfile (hasMarker : List String → Bool)
    (content : List String → String) (startDir : List String) : Option String :=
  match findProfileFile hasMarker startDir with
  | none => none
  | some d =>
    match readProfileName (content d) with
    | Except.ok n => some n
    | Except.error _ => none

end DirectoryScanner

namespace ConfigFileManager

/-- The `${KONTEXT_PROFILE_DIR}` placeholder recognised in profile paths. -/
def PROFILE_DIR_TOKEN : String := "${KONTEXT_PROFILE_DIR}"

/-- `ConfigFileManager.resolveProfilePath`: purely textual global
replacement of the placeholder token; no `..` resolution happens here. -/
def resolveProfilePath (profileDir pathTemplate : String) : String :=
  jsReplaceAll pathTemplate PROFILE_DIR_TOKEN profileDir

/-- `ConfigFileManager.resolvePath`: expand a leading `~/` against the
home directory, otherwise `path.resolve` against the working directory. -/
def resolvePath (home cwd : String) (pathTemplate : String) : String :=
  if strPrefixOf tildeSlash pathTemplate then
    pathJoin home (strDrop pathTemplate 2)
  else pathResolve1 cwd pathTemplate

/-- An entry of the modelled filesystem: a regular file or a symbolic
link storing its (possibly unnormalized) target string. -/
inductive FSEntry
  | file
  | symlink (target : String)
deriving DecidableEq, Repr

/-- The filesystem: a finite map from OS-normalized absolute paths to
entries (directories are implicit). -/
structure FS where
  entries : List (String × FSEntry)
deriving DecidableEq, Repr

/-- The `DotfileBackup` record of the source. -/
structure DotfileBackup where
  originalPath : String
  backupPath : String
  wasSymlink : Bool
  symlinkTarget : Option String
deriving DecidableEq, Repr

/-- Process state: the filesystem plus the process-local static
`backups` map. -/
structure St where
  fs : FS
  backups : List (String × DotfileBackup)
deriving DecidableEq, Repr

/-- The errors `createDotfileSymlink` / `removeDotfileSymlink` can raise. -/
inductive DotfileError
  | pathEscape (sourcePath : String)
  | sourceMissing (resolvedSourcePath : String)
  | eexist (path : String)
deriving DecidableEq, Repr

/-- `lstat`-level lookup: the stored entry at the OS-resolved path. -/
def FS.lookup (fs : FS) (p : String) : Option FSEntry :=
  (fs.entries.find? (fun e => e.1 == normalizePath p)).map (fun e => e.2)

/-- `fs.promises.access(F_OK)`: existence following symlinks (one hop;
link targets are regular files in all scenarios considered). -/
def fileExists (fs : FS) (p : String) : Bool :=
  match FS.lookup fs p with
  | some FSEntry.file => true
  | some (FSEntry.symlink t) =>
    match FS.lookup fs t with
    | some _ => true
    | none => false
  | none => false

/-- `fs.promises.unlink`: remove the entry itself. -/
def FS.remove (fs : FS) (p : String) : FS :=
  ⟨fs.entries.filter (fun e => e.1 != normalizePath p)⟩

/-- Add (or overwrite) an entry at an OS-resolved path. -/
def FS.insert (fs : FS) (p : String) (entry : FSEntry) : FS :=
  ⟨(normalizePath p, entry) :: (FS.remove fs p).entries⟩

/-- `fs.promises.rename`: move the entry at `a` to `b`. -/
def FS.rename (fs : FS) (a b : String) : FS :=
  match FS.lookup fs a with
  | none => fs
  | some e => FS.insert (FS.remove fs a) b e

/-- `Map.set` on the static backups map. -/
def setBackup (bs : List (String × DotfileBackup)) (k : String)
    (b : DotfileBackup) : List (String × DotfileBackup) :=
  (k, b) :: bs.filter (fun e => e.1 != k)

/-- `Map.get` on the static backups map. -/
def getBackup (bs : List (String × DotfileBackup)) (k : String) :
    Option DotfileBackup :=
  (bs.find? (fun e => e.1 == k)).map (fun e => e.2)

/-- `Map.delete` on the static backups map. -/
def deleteBackup (bs : List (String × DotfileBackup)) (k : String) :
    List (String × DotfileBackup) :=
  bs.filter (fun e => e.1 != k)

/-- JavaScript truthiness of the optional `symlinkTarget` string. -/
def truthy : Option String → Bool
  | some t => t != ""
  | none => false

/-- `ConfigFileManager.backupExistingFile`: `lstat` the path; a symlink is
recorded (with its target) and unlinked, a regular file is renamed to the
backup path.  `now` stands for the `Date.now()` timestamp interpolated
into the backup file name. -/
def backupExistingFile (now : String) (filePath : String) (st : St) : St :=
  let backupPath := filePath ++ ".kontext-backup-" ++ now
  match FS.lookup st.fs filePath with
  | some (FSEntry.symlink t) =>
    { fs := FS.remove st.fs filePath,
      backups := setBackup st.backups filePath
        ⟨filePath, backupPath, true, some t⟩ }
  | _ =>
    { fs := FS.rename st.fs filePath backupPath,
      backups := setBackup st.backups filePath
        ⟨filePath, backupPath, false, none⟩ }

/-- `ConfigFileManager.createDotfileSymlink`.  The validation is the
source's `resolvedSourcePath.startsWith(profileDir)` on the textual,
non-normalized path.  Creation of the target's parent directory is not
modelled (directories are implicit). -/
def createDotfileSymlink (profileDir home cwd : String) (now : String)
    (targetPath sourcePath : String) (st : St) : St × Option DotfileError :=
  let resolvedTargetPath := resolvePath home cwd targetPath
  let resolvedSourcePath := resolveProfilePath profileDir sourcePath
  if !(strPrefixOf profileDir resolvedSourcePath) then
    (st, some (DotfileError.pathEscape sourcePath))
  else if !(fileExists st.fs resolvedSourcePath) then
    (st, some (DotfileError.sourceMissing resolvedSourcePath))
  else
    let st1 := if fileExists st.fs resolvedTargetPath then
        backupExistingFile now resolvedTargetPath st
      else st
    match FS.lookup st1.fs resolvedTargetPath with
    | some _ => (st1, some (DotfileError.eexist resolvedTargetPath))
    | none =>
      ({ st1 with
          fs := FS.insert st1.fs resolvedTargetPath
            (FSEntry.symlink resolvedSourcePath) }, none)

/-- `ConfigFileManager.applyDotfiles`: sequential loop over the mapping,
stopping at the first raised error; mutations already performed are kept. -/
def applyDotfiles (profileDir home cwd : String) (now : String)
    (dotfiles : List (String × String)) (st : St) : St × Option DotfileError :=
  match dotfiles with
  | [] => (st, none)
  | (targetPath, sourcePath) :: rest =>
    match createDotfileSymlink profileDir home cwd now targetPath sourcePath st with
    | (st1, none) => applyDotfiles profileDir home cwd now rest st1
    | (st1, some e) => (st1, some e)

/-- `ConfigFileManager.removeDotfileSymlink`: unlink whatever exists at
the resolved target, then restore from the backup record if one exists
(re-creating the original symlink, or renaming the backup file back). -/
def removeDotfileSymlink (home cwd : String) (targetPath : String)
    (st : St) : St × Option DotfileError :=
  let resolvedTargetPath := resolvePath home cwd targetPath
  let backup := getBackup st.backups resolvedTargetPath
  let st1 : St :=
    if fileExists st.fs resolvedTargetPath then
      { st with fs := FS.remove st.fs resolvedTargetPath }
    else st
  match backup with
  | none => (st1, none)
  | some b =>
    if b.wasSymlink && truthy b.symlinkTarget then
      match b.symlinkTarget with
      | some t =>
        match FS.lookup st1.fs resolvedTargetPath with
        | some _ => (st1, some (DotfileError.eexist resolvedTargetPath))
        | none =>
          ({ fs := FS.insert st1.fs resolvedTargetPath (FSEntry.symlink t),
             backups := deleteBackup st1.backups resolvedTargetPath }, none)
      | none => (st1, none)
    else if fileExists st1.fs b.backupPath then
      ({ fs := FS.rename st1.fs b.backupPath resolvedTargetPath,
         backups := deleteBackup st1.backups resolvedTargetPath }, none)
    else
      ({ st1 with backups := deleteBackup st1.backups resolvedTargetPath }, none)

/-- `ConfigFileManager.removeDotfiles`: loop over the mapping's targets. -/
def removeDotfiles (home cwd : String) (dotfiles : List (String × String))
    (st : St) : St × Option DotfileError :=
  match dotfiles with
  | [] => (st, none)
  | (targetPath, _) :: rest =>
    match removeDotfileSymlink home cwd targetPath st with
    | (st1, none) => removeDotfiles home cwd rest st1
    | (st1, some e) => (st1, some e)

/-- `ConfigFileManager.validateProfilePath` (used for env files, not by
`createDotfileSymlink`): the same prefix check but on `path.normalize`d
paths. -/
def validateProfilePath (profileDir pathTemplate : String) : Bool :=
  strPrefixOf (normalizePath profileDir)
    (normalizePath (resolveProfilePath profileDir pathTemplate))

end ConfigFileManager

/-- Git section of the declarative `Profile` (file-based form). -/
structure GitSection where
  configPath : Option String
deriving DecidableEq, Repr

/-- Environment section of the declarative `Profile`.  `envFile` is the
field `environment-manager.ts` consumes (`profile.environment?.envFile`)
and the README documents as `env_file`; the `types.ts` interface omits
it, which is part of what the round-trip theorem below exposes. -/
structure EnvSection where
  «variables» : Option (List (String × String))
  envFile : Option String
  scriptPath : Option String
deriving DecidableEq, Repr

/-- Hooks section of the declarative `Profile`. -/
structure HooksSection where
  onActivate : Option String
  onDeactivate : Option String
deriving DecidableEq, Repr

/-- The declarative `Profile` of `types.ts` (JS objects are modelled as
ordered association lists). -/
structure Profile where
  name : String
  git : Option GitSection
  environment : Option EnvSection
  dotfiles : Option (List (String × String))
  hooks : Option HooksSection
deriving DecidableEq, Repr

/-- Git section of the persisted manifest (`ProfileConfig`). -/
structure GitSectionC where
  config_path : Option String
deriving DecidableEq, Repr

/-- Environment section of the persisted `profile.yml` manifest.  The
manifest format declares `env_file` (README example configuration), and
`validateProfileConfig` passes the raw parsed object through, so the
loaded config object carries it. -/
structure EnvSectionC where
  «variables» : Option (List (String × String))
  env_file : Option String
  script_path : Option String
deriving DecidableEq, Repr

/-- Hooks section of the persisted manifest. -/
structure HooksSectionC where
  on_activate : Option String
  on_deactivate : Option String
deriving DecidableEq, Repr

/-- The persisted manifest shape (`ProfileConfig` of `types.ts` together
with the README-documented `env_file` key). -/
structure ProfileConfig where
  name : String
  git : Option GitSectionC
  environment : Option EnvSectionC
  dotfiles : Option (List (String × String))
  hooks : Option HooksSectionC
deriving DecidableEq, Repr

namespace ProfileManager

/-- The profile store: per-name persisted manifests.  YAML serialization
(`js-yaml` dump/load, an excluded external collaborator) is assumed to
round-trip the manifest object faithfully. -/
abbrev Store := List (String × ProfileConfig)

/-- Errors raised by the store operations. -/
inductive StoreError
  | alreadyExists (name : String)
  | notFound (name : String)
  | loadFailed (name : String)
deriving DecidableEq, Repr

/-- `ProfileManager.convertConfigToProfile`: the source reads only
`config.git.config_path`, `config.environment.variables`,
`config.environment.script_path`, `config.dotfiles` and the two hook
keys; `environment.env_file` is never read, so the resulting profile's
`envFile` is absent. -/
def convertConfigToProfile (config : ProfileConfig) : Profile :=
  { name := config.name,
    git := config.git.map (fun g => ⟨g.config_path⟩),
    environment := config.environment.map (fun e =>
      { «variables» := e.«variables», envFile := none, scriptPath := e.script_path }),
    dotfiles := config.dotfiles,
    hooks := config.hooks.map (fun h => ⟨h.on_activate, h.on_deactivate⟩) }

/-- `ProfileManager.convertProfileToConfig`: writes only `variables` and
`script_path` into the environment section (no `env_file` key). -/
def convertProfileToConfig (profile : Profile) : ProfileConfig :=
  { name := profile.name,
    git := profile.git.map (fun g => ⟨g.configPath⟩),
    environment := profile.environment.map (fun e =>
      { «variables» := e.«variables», env_file := none, script_path := e.scriptPath }),
    dotfiles := profile.dotfiles,
    hooks := profile.hooks.map (fun h => ⟨h.onActivate, h.onDeactivate⟩) }

/-- Lookup of a persisted manifest by profile name. -/
def findConfig (store : Store) (profileName : String) : Option ProfileConfig :=
  (store.find? (fun e => e.1 == profileName)).map (fun e => e.2)

/-- `ProfileManager.profileExists`: the manifest file exists. -/
def profileExists (store : Store) (profileName : String) : Bool :=
  (findConfig store profileName).isSome

/-- `ProfileManager.validateProfileConfig`: the parsed object must have a
truthy string `name`. -/
def validateProfileConfig (config : ProfileConfig) : Bool :=
  config.name != ""

/-- `ProfileManager.createProfile`: fails when the profile directory
already exists, otherwise persists the converted manifest. -/
def createProfile (store : Store) (profile : Profile) : Except StoreError Store :=
  if profileExists store profile.name then
    Except.error (StoreError.alreadyExists profile.name)
  else
    Except.ok (store ++ [(profile.name, convertProfileToConfig profile)])

/-- `ProfileManager.getProfile`: `none` when no manifest exists; a load
failure when validation rejects the parsed object; otherwise the
converted profile. -/
def getProfile (store : Store) (profileName : String) :
    Except StoreError (Option Profile) :=
  match findConfig store profileName with
  | none => Except.ok none
  | some config =>
    if validateProfileConfig config then
      Except.ok (some (convertConfigToProfile config))
    else Except.error (StoreError.loadFailed profileName)

/-- `ProfileManager.deleteProfile`: fails when absent, otherwise removes
the profile's directory recursively. -/
def deleteProfile (store : Store) (profileName : String) : Except StoreError Store :=
  if profileExists store profileName then
    Except.ok (store.filter (fun e => e.1 != profileName))
  else Except.error (StoreError.notFound profileName)

end ProfileManager

/-- Outcome of the `delete` CLI command action. -/
inductive DeleteOutcome
  | notExists
  | activeConflict
  | cancelled
  | deleted
deriving DecidableEq, Repr

/-- The `delete` command action (`delete.ts`): existence check, then the
active-profile guard comparing `DirectoryScanner.getActiveProfile()` for
the working directory against the requested name, then the confirmation
prompt, and only then `ProfileManager.deleteProfile`. -/
def deleteCommandAction (store : ProfileManager.Store)
    (hasMarker : List String → Bool) (content : List String → String)
    (cwd : List String) (profileName : String) (confirmed : Bool) :
    DeleteOutcome × ProfileManager.Store :=
  if !(ProfileManager.profileExists store profileName) then
    (DeleteOutcome.notExists, store)
  else if DirectoryScanner.getActiveProfile hasMarker content cwd
      = some profileName then
    (DeleteOutcome.activeConflict, store)
  else if !confirmed then (DeleteOutcome.cancelled, store)
  else
    match ProfileManager.deleteProfile store profileName with
    | Except.ok store2 => (DeleteOutcome.deleted, store2)
    | Except.error _ => (DeleteOutcome.notExists, store)

namespace HookManager

/-- `HookManager.resolveHookPath`: `~/` expansion, absolute pass-through,
otherwise resolution against the working directory. -/
def resolveHookPath (home cwd : String) (hookPath : String) : String :=
  if strPrefixOf tildeSlash hookPath then pathJoin home (strDrop hookPath 2)
  else if isAbsolute hookPath then hookPath
  else pathResolve1 cwd hookPath

/-- The wall-clock timeout constant of `runHookScript`
(`setTimeout(..., 30000)`). -/
def HOOK_TIMEOUT_MS : Nat := 30000

/-- Observable behavior of the spawned `/bin/bash` child process:
it exits with a code after some wall-clock time, or never exits. -/
inductive ProcBehavior
  | exitsAfter (ms : Nat) (code : Int)
  | neverExits
deriving DecidableEq, Repr

/-- The failures `runHookScript`'s promise can reject with. -/
inductive HookFailure
  | timeout
  | nonZeroExit (code : Int)
deriving DecidableEq, Repr

/-- Settled value of the promise race in `runHookScript`, plus whether
`SIGTERM` was sent to the child (`child.kill('SIGTERM')`). -/
structure RunOutcome where
  result : Except HookFailure Unit
  sigtermSent : Bool
deriving DecidableEq, Repr

/-- `HookManager.runHookScript`: the `close` listener resolves on exit
code 0 and rejects with `NonZeroExit` otherwise; the 30000 ms timer sends
`SIGTERM` and rejects with `Timeout`; the promise settles with whichever
event fires first (at or after the deadline the timer has already
fired). -/
def runHookScript (behavior : ProcBehavior) : RunOutcome :=
  match behavior with
  | ProcBehavior.exitsAfter ms code =>
    if ms < HOOK_TIMEOUT_MS then
      { result := if code = 0 then Except.ok ()
          else Except.error (HookFailure.nonZeroExit code),
        sigtermSent := false }
    else { result := Except.error HookFailure.timeout, sigtermSent := true }
  | ProcBehavior.neverExits =>
    { result := Except.error HookFailure.timeout, sigtermSent := true }

/-- Inputs of one `executeHook` call: whether the resolved hook file
exists, and how the child process behaves if spawned.  The executable-bit
self-healing `chmod` is modelled as succeeding (it affects no observable
output). -/
structure HookEnv where
  resolvedExists : Bool
  behavior : ProcBehavior
deriving DecidableEq, Repr

/-- The warnings `executeHook` logs instead of raising. -/
inductive HookWarning
  | notFound
  | executionFailed (e : HookFailure)
deriving DecidableEq, Repr

/-- The `try` body of `executeHook`: the logged warnings and SIGTERM flag
so far, plus the exception escaping the body, if any. -/
def executeHookBody (h : HookEnv) : (List HookWarning × Bool) × Option HookFailure :=
  if !h.resolvedExists then (([HookWarning.notFound], false), none)
  else
    let r := runHookScript h.behavior
    match r.result with
    | Except.ok _ => (([], r.sigtermSent), none)
    | Except.error e => (([], r.sigtermSent), some e)

/-- `HookManager.executeHook`: the surrounding `catch` turns any failure
escaping the body into a logged warning; the function has no failure
channel at all. -/
def executeHook (h : HookEnv) : List HookWarning × Bool :=
  match executeHookBody h with
  | (out, none) => out
  | ((ws, sig), some e) => (ws ++ [HookWarning.executionFailed e], sig)

end HookManager

/-- Substring test (`String.prototype.includes`). -/
def listContainsSub (pat : List Char) : List Char → Bool
  | [] => pat.isEmpty
  | c :: cs => pat.isPrefixOf (c :: cs) || listContainsSub pat cs

/-- `s.includes(pat)`. -/
def strContains (s pat : String) : Bool :=
  listContainsSub pat.data s.data

/-- The ambient process world a static method could consult: the
filesystem contents and the clock.  The script generators receive it to
state that their output does not depend on it. -/
structure World where
  files : String → Option String
  now : Nat

/-- `commands.join('\n')`. -/
def joinLines (lines : List String) : String :=
  String.mk (List.intercalate ['\n'] (lines.map String.data))

namespace EnvironmentManager

/-- `EnvironmentManager.resolveScriptPath`: `${KONTEXT_PROFILE_DIR}`
substitution when a profile directory is given and the template mentions
the token, then `~/` expansion, absolute pass-through, and resolution
against the profile directory (or the working directory without one). -/
def resolveScriptPath (home cwd : String) (scriptPath : String)
    (profileDir : Option String) : String :=
  match profileDir with
  | some pd =>
    if strContains scriptPath ConfigFileManager.PROFILE_DIR_TOKEN then
      ConfigFileManager.resolveProfilePath pd scriptPath
    else if strPrefixOf tildeSlash scriptPath then
      pathJoin home (strDrop scriptPath 2)
    else if isAbsolute scriptPath then scriptPath
    else pathResolve2 cwd pd scriptPath
  | none =>
    if strPrefixOf tildeSlash scriptPath then
      pathJoin home (strDrop scriptPath 2)
    else if isAbsolute scriptPath then scriptPath
    else pathResolve1 cwd scriptPath

/-- The character class of `escapeShellValue`'s regex `/["\\$`]/g`
(double quote, backslash, dollar, backtick). -/
def isShellSpecial (c : Char) : Bool :=
  c = '\"' || c = '\\' || c = '$' || c = Char.ofNat 96

/-- `EnvironmentManager.escapeShellValue`:
`value.replace(/["\\$`]/g, '\\$&')`. -/
def escapeShellValue (value : String) : String :=
  String.mk (value.data.foldr
    (fun c acc => if isShellSpecial c then '\\' :: c :: acc else c :: acc) [])

/-- The `commands` array built by
`EnvironmentManager.generateActivationScript`, line by line.  Conditions
mirror JavaScript truthiness: string-valued fields must be nonempty,
the `variables` object only present. -/
def activationCommands (home cwd : String) (w : World) (profile : Profile)
    (profileDir : String) : List String :=
  let commands1 : List String :=
    [("#!/bin/bash"),
     ("# Kontext profile activation script for: ") ++ profile.name,
     (""),
     ("# Set profile directory"),
     ("export KONTEXT_PROFILE_DIR=\"") ++ profileDir ++ ("\""),
     ("")]
  let commands2 := commands1 ++
    (match profile.hooks.bind HooksSection.onActivate with
     | some onAct =>
       if onAct != "" then
         let hookPath := ConfigFileManager.resolveProfilePath profileDir onAct
         [("# Execute activation hook"),
          ("if [ -f \"") ++ hookPath ++ ("\" ]; then"),
          ("  export KONTEXT_PROFILE=\"") ++ profile.name ++ ("\""),
          ("  export KONTEXT_HOOK_TYPE=\"activate\""),
          ("  bash \"") ++ hookPath
            ++ ("\" 2>/dev/null || echo \"Warning: Activation hook failed\" >&2"),
          ("else"),
          ("  echo \"Warning: Activation hook not found: ") ++ hookPath ++ ("\" >&2"),
          ("fi"),
          ("")]
       else []
     | none => [])
  let commands3 := commands2 ++
    (match profile.environment.bind EnvSection.envFile with
     | some envFile =>
       if envFile != "" then
         let envFilePath := ConfigFileManager.resolveProfilePath profileDir envFile
         [("# Load .env file variables"),
          ("if [ -f \"") ++ envFilePath ++ ("\" ]; then"),
          ("  while IFS=\x27=\x27 read -r key value; do"),
          ("    # Skip empty lines and comments"),
          ("    [[ -z \"$key\" || \"$key\" =~ ^[[:space:]]*# ]] && continue"),
          ("    # Remove quotes if present"),
          ("    value=$\x7bvalue#\\\"\x7d; value=$\x7bvalue%\\\"\x7d"),
          ("    value=$\x7bvalue#\\\x27\x7d; value=$\x7bvalue%\\\x27\x7d"),
          ("    export \"$key\"=\"$value\""),
          ("  done < \"") ++ envFilePath ++ ("\""),
          ("else"),
          ("  echo \"Warning: Environment file not found: ") ++ envFilePath ++ ("\" >&2"),
          ("fi"),
          ("")]
       else []
     | none => [])
  let commands4 := commands3 ++
    (match profile.environment.bind (fun e => e.«variables») with
     | some vars =>
       [("# Environment variables")] ++
       vars.map (fun kv =>
         ("export ") ++ kv.1 ++ ("=\"") ++ escapeShellValue kv.2 ++ ("\"")) ++
       [("")]
     | none => [])
  let commands5 := commands4 ++
    (match profile.environment.bind EnvSection.scriptPath with
     | some sp =>
       if sp != "" then
         let scriptPath := resolveScriptPath home cwd sp (some profileDir)
         [("# Source profile script"),
          ("if [ -f \"") ++ scriptPath ++ ("\" ]; then"),
          ("  source \"") ++ scriptPath ++ ("\""),
          ("else"),
          ("  echo \"Warning: Profile script not found: ") ++ scriptPath ++ ("\" >&2"),
          ("fi"),
          ("")]
       else []
     | none => [])
  commands5 ++
    [("# Set current profile"),
     ("export KONTEXT_CURRENT_PROFILE=\"") ++ profile.name ++ ("\"")]

/-- `EnvironmentManager.generateActivationScript`. -/
def generateActivationScript (home cwd : String) (w : World) (profile : Profile)
    (profileDir : String) : String :=
  joinLines (activationCommands home cwd w profile profileDir)

/-- The `commands` array built by
`EnvironmentManager.generateDeactivationScript`. -/
def deactivationCommands (home cwd : String) (w : World)
    (profile : Option Profile) (profileDir : Option String) : List String :=
  let commands1 : List String :=
    [("#!/bin/bash"),
     ("# Kontext profile deactivation script"),
     ("")]
  let commands2 := commands1 ++
    (match (profile.bind Profile.environment).bind EnvSection.envFile, profileDir with
     | some envFile, some pd =>
       if envFile != "" && pd != "" then
         let envFilePath := ConfigFileManager.resolveProfilePath pd envFile
         [("# Unset .env file variables"),
          ("if [ -f \"") ++ envFilePath ++ ("\" ]; then"),
          ("  while IFS=\x27=\x27 read -r key value; do"),
          ("    # Skip empty lines and comments"),
          ("    [[ -z \"$key\" || \"$key\" =~ ^[[:space:]]*# ]] && continue"),
          ("    unset \"$key\""),
          ("  done < \"") ++ envFilePath ++ ("\""),
          ("fi"),
          ("")]
       else []
     | _, _ => [])
  let commands3 := commands2 ++
    (match (profile.bind Profile.environment).bind (fun e => e.«variables») with
     | some vars =>
       [("# Unset environment variables")] ++
       vars.map (fun kv => ("unset ") ++ kv.1) ++
       [("")]
     | none => [])
  let commands4 := commands3 ++
    [("# Clear current profile"),
     ("unset KONTEXT_CURRENT_PROFILE"),
     ("unset KONTEXT_PROFILE_DIR")]
  commands4 ++
    (match profile, profileDir with
     | some p, some pd =>
       match p.hooks.bind HooksSection.onDeactivate with
       | some onDeact =>
         if onDeact != "" && pd != "" then
           let hookPath := ConfigFileManager.resolveProfilePath pd onDeact
           [(""),
            ("# Execute deactivation hook"),
            ("if [ -f \"") ++ hookPath ++ ("\" ]; then"),
            ("  export KONTEXT_PROFILE=\"") ++ p.name ++ ("\""),
            ("  export KONTEXT_HOOK_TYPE=\"deactivate\""),
            ("  bash \"") ++ hookPath
              ++ ("\" 2>/dev/null || echo \"Warning: Deactivation hook failed\" >&2"),
            ("else"),
            ("  echo \"Warning: Deactivation hook not found: ") ++ hookPath ++ ("\" >&2"),
            ("fi")]
         else []
       | none => []
     | _, _ => [])

/-- `EnvironmentManager.generateDeactivationScript`. -/
def generateDeactivationScript (home cwd : String) (w : World)
    (profile : Option Profile) (profileDir : Option String) : String :=
  joinLines (deactivationCommands home cwd w profile profileDir)

end EnvironmentManager

/-- The concrete profile used to exercise the manifest round-trip: all
fields among those the manifest format declares, including
`environment.env_file`. -/
def envFileProfile : Profile :=
  { name := "work",
    git := none,
    environment := some
      { «variables» := some [(("API_URL"), ("b"))],
        envFile := some ("${KONTEXT_PROFILE_DIR}/.env"),
        scriptPath := none },
    dotfiles := none,
    hooks := none }

/-- The store produced by persisting `envFileProfile`. -/
def envFileStore : ProfileManager.Store :=
  [(("work"), ProfileManager.convertProfileToConfig envFileProfile)]

/-!
A small semantics for the fragment of bash the generators emit, used to
evaluate the generated activation text: top-level `export K="V"` lines
update the environment, and the `  done < "path"` line closing the
emitted env-file `while read` loop applies that loop's effect (reading
the redirected file from the file oracle; a missing file corresponds to
the generated `if [ -f ... ]` guard taking the `else` branch).  All other
emitted lines (comments, guards, warnings, loop bodies) do not touch the
environment.
-/

namespace ShellSem

/-- The single-quote character. -/
def squote : Char := Char.ofNat 39

/-- Assignment in the shell environment (last write wins). -/
def setVar (env : List (String × String)) (k v : String) :
    List (String × String) :=
  (k, v) :: env.filter (fun e => e.1 != k)

/-- Read a variable from the shell environment. -/
def lookupVar (env : List (String × String)) (k : String) : Option String :=
  (env.find? (fun e => e.1 == k)).map (fun e => e.2)

/-- Split at the first occurrence of `sep` (`IFS='=' read -r key value`:
the remainder of the line, inner separators included, goes to `value`). -/
def splitFirstChar (sep : Char) : List Char → Option (List Char × List Char)
  | [] => none
  | c :: cs =>
    if c = sep then some ([], cs)
    else
      match splitFirstChar sep cs with
      | none => none
      | some (a, b) => some (c :: a, b)

/-- Remove one leading `q` if present (`${value#\q}`). -/
def stripLead (q : Char) : List Char → List Char
  | [] => []
  | c :: cs => if c = q then cs else c :: cs

/-- Remove one trailing `q` if present (`${value%\q}`). -/
def stripTrail (q : Char) (l : List Char) : List Char :=
  (stripLead q l.reverse).reverse

/-- The loop's skip test `"$key" =~ ^[[:space:]]*#`. -/
def isCommentKey (k : List Char) : Bool :=
  match k.dropWhile (fun c => c = ' ' || c = '\t') with
  | [] => false
  | c :: _ => c = '#'

/-- The quote stripping performed by the emitted loop body: one leading
and one trailing double quote, then one leading and one trailing single
quote. -/
def stripQuotesBash (v : List Char) : List Char :=
  stripTrail squote (stripLead squote (stripTrail '\"' (stripLead '\"' v)))

/-- Bash double-quote unescaping, one character at a time (`pending`
records a backslash just seen): a backslash is removed before the four
characters it escapes inside double quotes and kept otherwise. -/
def unescapeDqAux (pending : Bool) : List Char → List Char
  | [] => if pending then ['\\'] else []
  | c :: cs =>
    if pending then
      (if EnvironmentManager.isShellSpecial c then [c] else ['\\', c])
        ++ unescapeDqAux false cs
    else if c = '\\' then unescapeDqAux true cs
    else c :: unescapeDqAux false cs

/-- Bash double-quote unescaping. -/
def unescapeDq (l : List Char) : List Char :=
  unescapeDqAux false l

/-- One iteration of the emitted env-file `while read` loop. -/
def envFileLoopLine (env : List (String × String)) (line : List Char) :
    List (String × String) :=
  let kv :=
    match splitFirstChar '=' line with
    | some p => p
    | none => (line, [])
  if kv.1.isEmpty || isCommentKey kv.1 then env
  else setVar env (String.mk kv.1) (String.mk (stripQuotesBash kv.2))

/-- The emitted env-file loop over the redirected file's lines. -/
def envFileLoop (env : List (String × String)) (content : String) :
    List (String × String) :=
  (splitOnChar '\n' content.data).foldl envFileLoopLine env

/-- Run the generated activation lines against a file oracle. -/
def runScriptLines (files : String → Option String) :
    List String → List (String × String) → List (String × String)
  | [], env => env
  | line :: rest, env =>
    let env2 :=
      if strPrefixOf ("export ") line then
        match splitFirstChar '=' (line.data.drop 7) with
        | some (k, v) =>
          setVar env (String.mk k)
            (String.mk (unescapeDq (stripTrail '\"' (stripLead '\"' v))))
        | none => env
      else if strPrefixOf ("  done < \"") line then
        let path := String.mk ((line.data.drop 10).dropLast)
        match files path with
        | some content => envFileLoop env content
        | none => env
      else env
    runScriptLines files rest env2

end ShellSem

/-- Count the occurrences of shell-special characters not immediately
preceded by a backslash, scanning left to right (`afterBackslash` records
that the previous character was a consuming backslash). -/
def scanUnescapedAux (afterBackslash : Bool) : List Char → Nat
  | [] => 0
  | c :: cs =>
    if afterBackslash then scanUnescapedAux false cs
    else if c = '\\' then scanUnescapedAux true cs
    else (if EnvironmentManager.isShellSpecial c then 1 else 0)
      + scanUnescapedAux false cs

/-- Unescaped shell-special characters in a string's character list. -/
def scanUnescaped (l : List Char) : Nat :=
  scanUnescapedAux false l

/-- The precedence scenario profile: the env file defines `API_URL=a`,
the explicit variables define `API_URL=b`. -/
def precedenceProfile : Profile :=
  { name := ("work"), git := none,
    environment := some
      { «variables» := some [(("API_URL"), ("b"))],
        envFile := some ("${KONTEXT_PROFILE_DIR}/.env"),
        scriptPath := none },
    dotfiles := none, hooks := none }

/-- The same profile without explicit variables (isolates the env-file
loading effect). -/
def precedenceProfileNoVars : Profile :=
  { precedenceProfile with
    environment := some
      { «variables» := none,
        envFile := some ("${KONTEXT_PROFILE_DIR}/.env"),
        scriptPath := none } }

/-- File oracle for the precedence scenario: the profile's env file holds
`API_URL=a`. -/
def precedenceFiles : String → Option String :=
  fun p => if p = ("/prof/.env") then some ("API_URL=a\n") else none

/-- The ambient world of the precedence scenario. -/
def precedenceWorld : World := ⟨precedenceFiles, 0⟩

/-- A profile whose `envFile` path carries an unescaped `$`. -/
def dollarProfile : Profile :=
  { name := ("w"), git := none,
    environment := some
      { «variables» := none,
        envFile := some ("${KONTEXT_PROFILE_DIR}/e$x"),
        scriptPath := none },
    dotfiles := none, hooks := none }

/-- A profile with every activation section configured. -/
def fullProfile : Profile :=
  { name := ("work"), git := none,
    environment := some
      { «variables» := some [(("API_URL"), ("b"))],
        envFile := some ("${KONTEXT_PROFILE_DIR}/.env"),
        scriptPath := some ("${KONTEXT_PROFILE_DIR}/setup.sh") },
    dotfiles := none,
    hooks := some
      { onActivate := some ("${KONTEXT_PROFILE_DIR}/hooks/activate.sh"),
        onDeactivate := none } }

end Kontext

namespace Kontext

/-- The upward scan visits exactly the ancestor chain `d.tails`
(`d`, its parent, …, the root `[]`) in order. -/
theorem findProfileFile_eq_find_tails (hm : List String → Bool) (d : List String) :
    DirectoryScanner.findProfileFile hm d = d.tails.find? hm := by
  induction d with
  | nil =>
    cases h : hm [] <;>
      simp [DirectoryScanner.findProfileFile, List.tails, List.find?, h]
  | cons c rest ih =>
    by_cases h : hm (c :: rest)
    · simp [DirectoryScanner.findProfileFile, h, List.find?]
    · simp [DirectoryScanner.findProfileFile, h, List.find?, ih]

/-- A directory carrying a marker is itself the scan result. -/
theorem findProfileFile_self (hm : List String → Bool) (d : List String)
    (h : hm d = true) : DirectoryScanner.findProfileFile hm d = some d := by
  cases d with
  | nil => simp [DirectoryScanner.findProfileFile, h]
  | cons c rest => simp [DirectoryScanner.findProfileFile, h]

/-- C3: `findProfileFile` checks the start directory, then each successive
parent up to and including the root, returning the first (nearest) marker
found (`d.tails.find?`) or `none`; consequently when a directory `D` and a
strict ancestor `A` both carry markers, `getActiveProfile D` returns the
profile named by `D`'s own marker. -/
theorem nearest_marker_wins :
    (∀ (hm : List String → Bool) (d : List String),
        DirectoryScanner.findProfileFile hm d = d.tails.find? hm) ∧
    (∀ (hm : List String → Bool) (content : List String → String)
        (D A : List String) (n : String),
        A ∈ D.tails → A ≠ D → hm D = true → hm A = true →
        DirectoryScanner.readProfileName (content D) = Except.ok n →
        DirectoryScanner.getActiveProfile hm content D = some n) := by
  constructor
  · exact findProfileFile_eq_find_tails
  · intro hm content D A n _ _ hD _ hread
    unfold DirectoryScanner.getActiveProfile
    rw [findProfileFile_self hm D hD]
    simp [hread]

open ConfigFileManager in
/-- The entry just inserted is found at its own path. -/
theorem FS_lookup_insert (fs : FS) (p : String) (e : FSEntry) :
    FS.lookup (FS.insert fs p e) p = some e := by
  simp [FS.lookup, FS.insert, List.find?_cons_of_pos]

open ConfigFileManager in
/-- A successful `createDotfileSymlink` leaves the new symlink (pointing at
the textually resolved source) at the resolved target path. -/
theorem createDotfileSymlink_ok_lookup (profileDir home cwd now t s : String)
    (st0 : St)
    (h : (createDotfileSymlink profileDir home cwd now t s st0).2 = none) :
    FS.lookup (createDotfileSymlink profileDir home cwd now t s st0).1.fs
      (resolvePath home cwd t)
      = some (FSEntry.symlink (resolveProfilePath profileDir s)) := by
  simp only [createDotfileSymlink] at h ⊢
  split at h
  · simp_all
  · split at h
    · simp_all
    · split at h
      · simp_all
      · simp_all [FS_lookup_insert]

open ConfigFileManager in
/-- A source failing the textual prefix check makes `createDotfileSymlink`
fail immediately with `pathEscape`, leaving the state untouched. -/
theorem createDotfileSymlink_escape (profileDir home cwd now t s : String)
    (st : St)
    (h : strPrefixOf profileDir (resolveProfilePath profileDir s) = false) :
    createDotfileSymlink profileDir home cwd now t s st
      = (st, some (DotfileError.pathEscape s)) := by
  simp only [createDotfileSymlink, h]
  simp

open ConfigFileManager in
/-- C1: the sandbox validation in `createDotfileSymlink` is the textual
`startsWith(profileDir)` on the non-normalized resolved source, so a
`${KONTEXT_PROFILE_DIR}/../../evil` source passes it: `applyDotfiles`
succeeds and creates a symlink whose OS-resolved destination `/evil` lies
outside the profile directory, contradicting the PathEscape invariant. -/
theorem applyDotfiles_accepts_dotdot_escape :
    (applyDotfiles ("/profiles/work") ("/home/u") ("/cwd") ("0")
        [(("~/.vimrc"), ("${KONTEXT_PROFILE_DIR}/../../evil"))]
        ⟨⟨[(("/evil"), FSEntry.file)]⟩, []⟩).2 = none ∧
    FS.lookup
      (applyDotfiles ("/profiles/work") ("/home/u") ("/cwd") ("0")
        [(("~/.vimrc"), ("${KONTEXT_PROFILE_DIR}/../../evil"))]
        ⟨⟨[(("/evil"), FSEntry.file)]⟩, []⟩).1.fs ("/home/u/.vimrc")
      = some (FSEntry.symlink ("/profiles/work/../../evil")) ∧
    strPrefixOf ("/profiles/work")
      (normalizePath ("/profiles/work/../../evil")) = false := by
  decide

open ConfigFileManager in
/-- C2 counterexample: with no prior `applyDotfiles` (empty backups map),
`removeDotfiles` on a mapping whose target already holds a pre-existing
regular file deletes that file: the filesystem is changed. -/
theorem removeDotfiles_deletes_preexisting_file :
    removeDotfiles ("/home/u") ("/cwd")
        [(("~/.vimrc"), ("${KONTEXT_PROFILE_DIR}/.vimrc"))]
        ⟨⟨[(("/home/u/.vimrc"), FSEntry.file)]⟩, []⟩
      = (⟨⟨[]⟩, []⟩, none) ∧
    (⟨⟨[(("/home/u/.vimrc"), FSEntry.file)]⟩, []⟩ : St) ≠ ⟨⟨[]⟩, []⟩ := by
  decide

open ConfigFileManager in
/-- C2 (amended): with an empty backups map, `removeDotfiles` raises no
error; and when nothing exists at any mapped target it leaves the
filesystem unchanged.  (When a file or symlink does exist at a mapped
target it is unlinked and nothing is restored.) -/
theorem removeDotfiles_without_prior_apply (home cwd : String)
    (mapping : List (String × String)) (fs : FS) :
    (removeDotfiles home cwd mapping ⟨fs, []⟩).2 = none ∧
    ((∀ p ∈ mapping,
        fileExists fs (resolvePath home cwd p.1) = false) →
      removeDotfiles home cwd mapping ⟨fs, []⟩ = (⟨fs, []⟩, none)) := by
  induction mapping generalizing fs with
  | nil => simp [removeDotfiles]
  | cons p rest ih =>
    obtain ⟨t, s⟩ := p
    constructor
    · simp only [removeDotfiles, removeDotfileSymlink, getBackup, List.find?_nil,
        Option.map_none']
      split
      · exact (ih _).1
      · exact (ih _).1
    · intro habs
      have ht := habs (t, s) (by simp)
      simp only [removeDotfiles, removeDotfileSymlink, getBackup, List.find?_nil,
        Option.map_none', ht]
      simp only [Bool.false_eq_true, if_false]
      exact (ih fs).2 (fun q hq => habs q (by simp [hq]))

open ConfigFileManager in
/-- Witness for C2 (amended): one mapped target, nothing at the target
path, a profile file elsewhere: the state is returned unchanged. -/
theorem removeDotfiles_without_prior_apply_witness :
    removeDotfiles ("/home/u") ("/cwd")
        [(("~/.vimrc"), ("${KONTEXT_PROFILE_DIR}/.vimrc"))]
        ⟨⟨[(("/p/.vimrc"), FSEntry.file)]⟩, []⟩
      = (⟨⟨[(("/p/.vimrc"), FSEntry.file)]⟩, []⟩, none) :=
  (removeDotfiles_without_prior_apply ("/home/u") ("/cwd")
      [(("~/.vimrc"), ("${KONTEXT_PROFILE_DIR}/.vimrc"))]
      ⟨[(("/p/.vimrc"), FSEntry.file)]⟩).2 (by decide)

open ConfigFileManager in
/-- C9: `applyDotfiles` is not atomic.  If the first entry succeeds and the
second entry's source fails the sandbox check, the whole call returns that
error but the state is exactly the post-first-entry state: the symlink
created for the first entry (and any backup recorded for it) remains. -/
theorem applyDotfiles_no_rollback (profileDir home cwd now t1 s1 t2 s2 : String)
    (st0 : St)
    (h1 : (createDotfileSymlink profileDir home cwd now t1 s1 st0).2 = none)
    (h2 : strPrefixOf profileDir (resolveProfilePath profileDir s2) = false) :
    applyDotfiles profileDir home cwd now [(t1, s1), (t2, s2)] st0
      = ((createDotfileSymlink profileDir home cwd now t1 s1 st0).1,
         some (DotfileError.pathEscape s2)) ∧
    FS.lookup (createDotfileSymlink profileDir home cwd now t1 s1 st0).1.fs
      (resolvePath home cwd t1)
      = some (FSEntry.symlink (resolveProfilePath profileDir s1)) := by
  constructor
  · obtain ⟨st1, hst⟩ : ∃ x, createDotfileSymlink profileDir home cwd now t1 s1 st0
        = (x, none) :=
      ⟨(createDotfileSymlink profileDir home cwd now t1 s1 st0).1, by rw [← h1]⟩
    have hfst : (createDotfileSymlink profileDir home cwd now t1 s1 st0).1 = st1 := by
      rw [hst]
    rw [hfst]
    simp only [applyDotfiles, hst,
      createDotfileSymlink_escape profileDir home cwd now t2 s2 st1 h2]
  · exact createDotfileSymlink_ok_lookup profileDir home cwd now t1 s1 st0 h1

open ConfigFileManager in
/-- Witness for C9: the first mapping entry installs `/home/u/.a`, the
second escapes the sandbox; the error is reported and the symlink stays. -/
theorem applyDotfiles_no_rollback_witness :
    applyDotfiles ("/p") ("/home/u") ("/cwd") ("0")
        [(("~/.a"), ("${KONTEXT_PROFILE_DIR}/.vimrc")), (("~/.b"), ("/outside"))]
        ⟨⟨[(("/p/.vimrc"), FSEntry.file)]⟩, []⟩
      = ((createDotfileSymlink ("/p") ("/home/u") ("/cwd") ("0") ("~/.a")
            ("${KONTEXT_PROFILE_DIR}/.vimrc") ⟨⟨[(("/p/.vimrc"), FSEntry.file)]⟩, []⟩).1,
         some (DotfileError.pathEscape ("/outside"))) ∧
    FS.lookup (createDotfileSymlink ("/p") ("/home/u") ("/cwd") ("0") ("~/.a")
          ("${KONTEXT_PROFILE_DIR}/.vimrc") ⟨⟨[(("/p/.vimrc"), FSEntry.file)]⟩, []⟩).1.fs
        (resolvePath ("/home/u") ("/cwd") ("~/.a"))
      = some (FSEntry.symlink (resolveProfilePath ("/p") ("${KONTEXT_PROFILE_DIR}/.vimrc"))) :=
  applyDotfiles_no_rollback ("/p") ("/home/u") ("/cwd") ("0") ("~/.a")
    ("${KONTEXT_PROFILE_DIR}/.vimrc") ("~/.b") ("/outside")
    ⟨⟨[(("/p/.vimrc"), FSEntry.file)]⟩, []⟩ (by decide) (by decide)

/-- C6: evaluated at a profile whose fields are all among those the
manifest format declares (including `environment.env_file`), the
`createProfile` / `getProfile` round-trip loses `env_file`: the conversion
functions never read or write it, contradicting the README-documented
manifest format and the `envFile` consumption in the activation engine.
The final conjunct shows a hand-authored manifest with `env_file` is
likewise stripped on load. -/
theorem create_then_get_drops_env_file :
    ProfileManager.createProfile [] envFileProfile = Except.ok envFileStore ∧
    ProfileManager.getProfile envFileStore ("work")
      = Except.ok (some { envFileProfile with
          environment := some
            { «variables» := some [(("API_URL"), ("b"))],
              envFile := none, scriptPath := none } }) ∧
    ProfileManager.getProfile envFileStore ("work")
      ≠ Except.ok (some envFileProfile) ∧
    envFileProfile.environment = some
      { «variables» := some [(("API_URL"), ("b"))],
        envFile := some ("${KONTEXT_PROFILE_DIR}/.env"), scriptPath := none } ∧
    ProfileManager.getProfile
        [(("work"),
          { name := "work", git := none,
            environment := some
              { «variables» := none, env_file := some (".env"), script_path := none },
            dotfiles := none, hooks := none })] ("work")
      = Except.ok (some
          { name := "work", git := none,
            environment := some
              { «variables» := none, envFile := none, scriptPath := none },
            dotfiles := none, hooks := none }) := by
  decide

/-- C8: deleting a profile while `getActiveProfile` of the working
directory names that same (existing) profile fails with the
active-profile-conflict outcome and returns the store unchanged — no
filesystem mutation happens. -/
theorem delete_active_profile_guard (store : ProfileManager.Store)
    (hm : List String → Bool) (content : List String → String)
    (cwd : List String) (profileName : String) (confirmed : Bool)
    (hex : ProfileManager.profileExists store profileName = true)
    (hact : DirectoryScanner.getActiveProfile hm content cwd = some profileName) :
    deleteCommandAction store hm content cwd profileName confirmed
      = (DeleteOutcome.activeConflict, store) := by
  simp [deleteCommandAction, hex, hact]

/-- Witness for C8: the `work` profile exists and the working directory's
marker names it; deletion is refused and the store is untouched. -/
theorem delete_active_profile_guard_witness :
    deleteCommandAction
      [(("work"), ProfileManager.convertProfileToConfig envFileProfile)]
      (fun d => decide (d = [("proj" : String)]))
      (fun _ => ("work" : String)) [("proj" : String)] ("work") true
      = (DeleteOutcome.activeConflict,
         [(("work"), ProfileManager.convertProfileToConfig envFileProfile)]) :=
  delete_active_profile_guard
    [(("work"), ProfileManager.convertProfileToConfig envFileProfile)]
    (fun d => decide (d = [("proj" : String)]))
    (fun _ => ("work" : String)) [("proj" : String)] ("work") true
    (by decide) (by decide)

open HookManager in
/-- C5: a hook running for at least 30000 ms (or forever) is killed with
SIGTERM and the run settles as a Timeout failure; a faster run with a
non-zero exit code settles as a NonZeroExit failure; a missing hook file
yields only a warning; and whenever the body of `executeHook` raises, the
`catch` downgrades the failure to a logged warning, so `executeHook`
always returns normally. -/
theorem hook_timeout_and_failure_isolation :
    (∀ (ms : Nat) (code : Int), HOOK_TIMEOUT_MS ≤ ms →
        runHookScript (ProcBehavior.exitsAfter ms code)
          = ⟨Except.error HookFailure.timeout, true⟩) ∧
    runHookScript ProcBehavior.neverExits
      = ⟨Except.error HookFailure.timeout, true⟩ ∧
    (∀ (ms : Nat) (code : Int), ms < HOOK_TIMEOUT_MS → code ≠ 0 →
        runHookScript (ProcBehavior.exitsAfter ms code)
          = ⟨Except.error (HookFailure.nonZeroExit code), false⟩) ∧
    (∀ h : HookEnv, h.resolvedExists = false →
        executeHook h = ([HookWarning.notFound], false)) ∧
    (∀ (h : HookEnv) (out : List HookWarning × Bool) (e : HookFailure),
        executeHookBody h = (out, some e) →
        executeHook h = (out.1 ++ [HookWarning.executionFailed e], out.2)) := by
  refine ⟨?_, rfl, ?_, ?_, ?_⟩
  · intro ms code hms
    simp [runHookScript, Nat.not_lt.mpr hms]
  · intro ms code hms hcode
    simp [runHookScript, hms, hcode]
  · intro h hex
    simp [executeHook, executeHookBody, hex]
  · intro h out e hbody
    simp [executeHook, hbody]

open HookManager in
/-- Witness for C5: a hook sleeping 40 seconds is terminated as a timeout;
a 1-second hook exiting 1 is a NonZeroExit; a missing hook produces only
the not-found warning. -/
theorem hook_timeout_and_failure_isolation_witness :
    runHookScript (ProcBehavior.exitsAfter 40000 0)
      = ⟨Except.error HookFailure.timeout, true⟩ ∧
    runHookScript (ProcBehavior.exitsAfter 1000 1)
      = ⟨Except.error (HookFailure.nonZeroExit 1), false⟩ ∧
    executeHook ⟨false, ProcBehavior.neverExits⟩
      = ([HookWarning.notFound], false) ∧
    executeHook ⟨true, ProcBehavior.exitsAfter 40000 0⟩
      = ([HookWarning.executionFailed HookFailure.timeout], true) :=
  ⟨hook_timeout_and_failure_isolation.1 40000 0 (by decide),
   hook_timeout_and_failure_isolation.2.2.1 1000 1 (by decide) (by decide),
   hook_timeout_and_failure_isolation.2.2.2.1 ⟨false, ProcBehavior.neverExits⟩ rfl,
   hook_timeout_and_failure_isolation.2.2.2.2 ⟨true, ProcBehavior.exitsAfter 40000 0⟩
     ([], true) HookFailure.timeout (by decide)⟩

/-- C10: the script generators never consult the ambient world (file
contents, clock): two calls under arbitrarily different worlds but equal
`(profile, profileDir)` arguments produce identical text, for activation
and deactivation alike.  (All file-existence checks appear inside the
emitted `if [ -f ... ]` shell code.) -/
theorem generation_is_world_independent :
    ∀ (w w' : World) (home cwd : String) (p : Profile) (profileDir : String)
      (op : Option Profile) (opd : Option String),
      EnvironmentManager.generateActivationScript home cwd w p profileDir
        = EnvironmentManager.generateActivationScript home cwd w' p profileDir ∧
      EnvironmentManager.generateDeactivationScript home cwd w op opd
        = EnvironmentManager.generateDeactivationScript home cwd w' op opd :=
  fun _ _ _ _ _ _ _ _ => ⟨rfl, rfl⟩

/-- C7 counterexample: the profile-authored env-file path `…/e$x` is
embedded into the activation text with its `$` left unescaped (the line
with the escaped form `e\$x`, which escaping the value per the claim
would produce, does not occur), so not every profile-authored value is
backslash-escaped before embedding. -/
theorem unescaped_path_embedding :
    (("if [ -f \"/p/e$x\" ]; then")
        ∈ EnvironmentManager.activationCommands ("/h") ("/c") precedenceWorld
            dollarProfile ("/p")) ∧
    ¬ (("if [ -f \"/p/e\\$x\" ]; then")
        ∈ EnvironmentManager.activationCommands ("/h") ("/c") precedenceWorld
            dollarProfile ("/p")) ∧
    EnvironmentManager.escapeShellValue ("e$x") = ("e\\$x") := by
  decide

/-- C7 (amended): only the values of the explicit `variables` map are
escaped via `escapeShellValue` before being embedded into the generated
activation text (and that escaper leaves no unescaped occurrence of
double quote, backslash, dollar or backtick); other profile-authored
values (paths, profile name) are embedded verbatim. -/
theorem escaped_variable_values :
    (∀ (home cwd : String) (w : World) (p : Profile) (profileDir : String)
       (e : EnvSection) (vars : List (String × String)) (k v : String),
       p.environment = some e → e.«variables» = some vars → (k, v) ∈ vars →
       (("export ") ++ k ++ ("=\"") ++ EnvironmentManager.escapeShellValue v ++ ("\""))
         ∈ EnvironmentManager.activationCommands home cwd w p profileDir) ∧
    (∀ s : String, scanUnescaped (EnvironmentManager.escapeShellValue s).data = 0) := by
  constructor
  · intro home cwd w p profileDir e vars k v henv hvars hkv
    simp only [EnvironmentManager.activationCommands, henv, hvars, Option.some_bind]
    have hx : (("export ") ++ k ++ ("=\"")
          ++ EnvironmentManager.escapeShellValue v ++ ("\""))
        ∈ vars.map (fun kv =>
            ("export ") ++ kv.1 ++ ("=\"")
              ++ EnvironmentManager.escapeShellValue kv.2 ++ ("\"")) :=
      List.mem_map.mpr ⟨(k, v), hkv, rfl⟩
    simp [List.mem_append, hx]
  · intro s
    cases s with
    | mk data =>
      show scanUnescapedAux false (List.foldr _ [] data) = 0
      induction data with
      | nil => rfl
      | cons c cs ih =>
        by_cases hc : EnvironmentManager.isShellSpecial c = true
        · simpa [hc, scanUnescapedAux] using ih
        · have hcb : ¬ (c = '\\') := by
            intro hceq
            simp [EnvironmentManager.isShellSpecial, hceq] at hc
          simpa [hc, hcb, scanUnescapedAux] using ih

/-- Witness for C7 (amended): the explicit `API_URL` variable's value is
embedded through the escaper, and the escaper output of a value holding
all four special characters scans clean. -/
theorem escaped_variable_values_witness :
    ((("export ") ++ ("API_URL") ++ ("=\"")
        ++ EnvironmentManager.escapeShellValue ("b") ++ ("\""))
      ∈ EnvironmentManager.activationCommands ("/h") ("/c") precedenceWorld
          precedenceProfile ("/prof")) ∧
    scanUnescaped (EnvironmentManager.escapeShellValue ("a\"b\\c$d")).data = 0 :=
  ⟨escaped_variable_values.1 ("/h") ("/c") precedenceWorld precedenceProfile
      ("/prof") _ _ ("API_URL") ("b") rfl rfl (by decide),
   escaped_variable_values.2 ("a\"b\\c$d")⟩

/-- C4: with all sections configured, the generated activation commands
contain the profile-directory export, the activation-hook invocation, the
env-file loading, the explicit variable export, the script sourcing and
the current-profile export in this strict order (as a sublist); and in
the concrete precedence scenario (env file sets `API_URL=a`, explicit
variables set `API_URL=b`) evaluating the generated script leaves
`API_URL=b`, while without the explicit variable it leaves `API_URL=a`. -/
theorem activation_script_order_and_precedence :
    (∀ (home cwd : String) (w : World) (p : Profile) (profileDir : String)
       (hk : HooksSection) (e : EnvSection) (oh ef sp k v : String)
       (vrest : List (String × String)),
       p.hooks = some hk → hk.onActivate = some oh → (oh != "") = true →
       p.environment = some e → e.envFile = some ef → (ef != "") = true →
       e.«variables» = some ((k, v) :: vrest) →
       e.scriptPath = some sp → (sp != "") = true →
       List.Sublist
         [("export KONTEXT_PROFILE_DIR=\"") ++ profileDir ++ ("\""),
          ("  bash \"") ++ ConfigFileManager.resolveProfilePath profileDir oh
            ++ ("\" 2>/dev/null || echo \"Warning: Activation hook failed\" >&2"),
          ("  done < \"") ++ ConfigFileManager.resolveProfilePath profileDir ef
            ++ ("\""),
          ("export ") ++ k ++ ("=\"") ++ EnvironmentManager.escapeShellValue v
            ++ ("\""),
          ("  source \"")
            ++ EnvironmentManager.resolveScriptPath home cwd sp (some profileDir)
            ++ ("\""),
          ("export KONTEXT_CURRENT_PROFILE=\"") ++ p.name ++ ("\"")]
         (EnvironmentManager.activationCommands home cwd w p profileDir)) ∧
    ShellSem.lookupVar
        (ShellSem.runScriptLines precedenceFiles
          (EnvironmentManager.activationCommands ("/h") ("/c") precedenceWorld
            precedenceProfile ("/prof")) [])
        ("API_URL") = some ("b") ∧
    ShellSem.lookupVar
        (ShellSem.runScriptLines precedenceFiles
          (EnvironmentManager.activationCommands ("/h") ("/c") precedenceWorld
            precedenceProfileNoVars ("/prof")) [])
        ("API_URL") = some ("a") := by
  refine ⟨?_, by decide, by decide⟩
  intro home cwd w p profileDir hk e oh ef sp k v vrest
    hhk hoh hohne henv hef hefne hvars hsp hspne
  simp only [EnvironmentManager.activationCommands, hhk, hoh, henv, hef, hvars,
    hsp, Option.some_bind]
  rw [if_pos hohne, if_pos hefne, if_pos hspne]
  simp only [List.append_assoc, List.cons_append, List.singleton_append,
    List.nil_append, List.map_cons]
  apply List.Sublist.cons
  apply List.Sublist.cons
  apply List.Sublist.cons
  apply List.Sublist.cons
  apply List.Sublist.cons₂
  apply List.Sublist.cons
  apply List.Sublist.cons
  apply List.Sublist.cons
  apply List.Sublist.cons
  apply List.Sublist.cons
  apply List.Sublist.cons₂
  apply List.Sublist.cons
  apply List.Sublist.cons
  apply List.Sublist.cons
  apply List.Sublist.cons
  apply List.Sublist.cons
  apply List.Sublist.cons
  apply List.Sublist.cons
  apply List.Sublist.cons
  apply List.Sublist.cons
  apply List.Sublist.cons
  apply List.Sublist.cons
  apply List.Sublist.cons
  apply List.Sublist.cons
  apply List.Sublist.cons₂
  apply List.Sublist.cons
  apply List.Sublist.cons
  apply List.Sublist.cons
  apply List.Sublist.cons
  apply List.Sublist.cons
  apply List.Sublist.cons₂
  refine List.Sublist.trans ?_ (List.sublist_append_right _ _)
  apply List.Sublist.cons
  apply List.Sublist.cons
  apply List.Sublist.cons
  apply List.Sublist.cons₂
  apply List.Sublist.cons
  apply List.Sublist.cons
  apply List.Sublist.cons
  apply List.Sublist.cons
  apply List.Sublist.cons
  apply List.Sublist.cons₂
  exact List.Sublist.refl []

/-- Witness for C4: the profile with all sections configured yields the
six anchors as an ordered sublist of its activation commands. -/
theorem activation_script_order_witness :
    List.Sublist
      [("export KONTEXT_PROFILE_DIR=\"") ++ ("/prof") ++ ("\""),
       ("  bash \"")
         ++ ConfigFileManager.resolveProfilePath ("/prof")
              ("${KONTEXT_PROFILE_DIR}/hooks/activate.sh")
         ++ ("\" 2>/dev/null || echo \"Warning: Activation hook failed\" >&2"),
       ("  done < \"")
         ++ ConfigFileManager.resolveProfilePath ("/prof")
              ("${KONTEXT_PROFILE_DIR}/.env") ++ ("\""),
       ("export ") ++ ("API_URL") ++ ("=\"")
         ++ EnvironmentManager.escapeShellValue ("b") ++ ("\""),
       ("  source \"")
         ++ EnvironmentManager.resolveScriptPath ("/h") ("/c")
              ("${KONTEXT_PROFILE_DIR}/setup.sh") (some ("/prof")) ++ ("\""),
       ("export KONTEXT_CURRENT_PROFILE=\"") ++ ("work") ++ ("\"")]
      (EnvironmentManager.activationCommands ("/h") ("/c") precedenceWorld
        fullProfile ("/prof")) :=
  activation_script_order_and_precedence.1 ("/h") ("/c") precedenceWorld
    fullProfile ("/prof")
    { onActivate := some ("${KONTEXT_PROFILE_DIR}/hooks/activate.sh"),
      onDeactivate := none }
    { «variables» := some [(("API_URL"), ("b"))],
      envFile := some ("${KONTEXT_PROFILE_DIR}/.env"),
      scriptPath := some ("${KONTEXT_PROFILE_DIR}/setup.sh") }
    ("${KONTEXT_PROFILE_DIR}/hooks/activate.sh")
    ("${KONTEXT_PROFILE_DIR}/.env") ("${KONTEXT_PROFILE_DIR}/setup.sh")
    ("API_URL") ("b") []
    rfl rfl (by decide) rfl rfl (by decide) rfl rfl (by decide)

/-- Witness: a marker naming `work` in `/proj` shadows a root marker. -/
theorem nearest_marker_wins_witness :
    DirectoryScanner.getActiveProfile
      (fun d => decide (d = [("proj" : String)] ∨ d = []))
      (fun _ => ("work" : String)) [("proj" : String)] = some ("work" : String) :=
  nearest_marker_wins.2
    (fun d => decide (d = [("proj" : String)] ∨ d = []))
    (fun _ => ("work" : String)) [("proj" : String)] [] ("work" : String)
    (by decide) (by decide) (by decide) (by decide) (by rfl)

end Kontext
